import Mathlib

/-!
Verification of the tool/agent dispatch and artifact-streaming protocol of the
agent-workshop repository.  The embedding follows the TypeScript source:

* `DataEvent` mirrors the tagged objects written to the UI message stream by
  `dataStream.write` (`data-id`, `data-title`, `data-kind`, `data-clear`,
  `data-flashcardDelta`, `data-studyPlanDelta`, `data-finish`).
* `quizMasterExecute` / `plannerExecute` embed the `execute` bodies of
  `createQuizMasterAgent` (lib/ai/agents/quiz-master.ts) and
  `createPlannerAgent` (lib/ai/agents/planner.ts), parameterised by the
  outcome of the downstream `generateObject` call, by whether the session has
  an authenticated user, and by whether `saveDocument` throws.
* `tutorExecute` / `analystExecute` embed the `execute` bodies of
  `createTutorAgent` and `createAnalystAgent`, which have no try/catch: the
  outcome of `generateText` is propagated through the `Except` monad.
* `dataStreamHandlerSwitch` / `flashcardOnStreamPart` embed the client-side
  reducer (`DataStreamHandler` in components/data-stream-handler.tsx and
  `flashcardArtifact.onStreamPart` in artifacts/flashcard/client.tsx).
* `JValue` with the `...ParseArgs` functions embeds the zod `inputSchema`
  declarations (zod object parsing strips undeclared keys by default,
  applies `.default` values for missing keys, and rejects missing required
  or mistyped fields).
* `saveDocument`, `getDocumentById`, `getDocumentsById` embed the MongoDB
  document queries of lib/db/queries.ts over a list model of the collection.
* `getWeatherExecute` and `geocodeCity` embed the chapter-1 weather tool.
-/

namespace AgentWorkshop

/-- Artifact Channel events: one constructor per `dataStream.write` tag used
by the agents (`data-id`, `data-title`, `data-kind`, `data-clear`,
`data-flashcardDelta`, `data-studyPlanDelta`, `data-finish`). -/
inductive DataEvent
  | dataId (d : String)
  | dataTitle (d : String)
  | dataKind (d : String)
  | dataClear
  | flashcardDelta (d : String)
  | studyPlanDelta (d : String)
  | dataFinish
  deriving DecidableEq, Repr

/-- The `AgentResult` type of lib/ai/agents/types.ts (the `data` metadata map
is omitted except for the pieces the claims mention). -/
structure AgentResult where
  agentName : String
  success : Bool
  summary : String
  deriving DecidableEq, Repr

/-- One question of the quiz payload (`flashcardSchema` element type). -/
structure FlashcardQuestion where
  question : String
  options : List String
  correctAnswer : Rat
  explanation : String
  deriving DecidableEq, Repr

/-- The quiz payload validated by `flashcardSchema`. -/
structure FlashcardData where
  topic : String
  questions : List FlashcardQuestion
  deriving DecidableEq, Repr

/-- One task of a study-plan week (`studyPlanSchema`). -/
structure StudyPlanTask where
  task : String
  duration : String
  completed : Bool
  deriving DecidableEq, Repr

/-- One week of a study plan (`studyPlanSchema`). -/
structure StudyPlanWeek where
  week : Rat
  title : String
  goals : List String
  tasks : List StudyPlanTask
  resources : List String
  deriving DecidableEq, Repr

/-- The study-plan payload validated by `studyPlanSchema`. -/
structure StudyPlanData where
  topic : String
  duration : String
  overview : String
  weeks : List StudyPlanWeek
  tips : List String
  deriving DecidableEq, Repr

/-- Stand-in for `JSON.stringify` on a flashcard payload.  Every claim treats
the serialized content as an opaque string, so the exact encoding is
irrelevant; this one is a plain JSON-like rendering. -/
def serializeQuestion (q : FlashcardQuestion) : String :=
  "\x7b\"question\":\"" ++ q.question ++ "\",\"options\":[" ++
    String.intercalate "," (q.options.map (fun o => "\"" ++ o ++ "\"")) ++
    "],\"correctAnswer\":" ++ toString q.correctAnswer ++
    ",\"explanation\":\"" ++ q.explanation ++ "\"\x7d"

/-- Stand-in for `JSON.stringify(object, null, 2)` in the quiz master. -/
def serializeFlashcards (d : FlashcardData) : String :=
  "\x7b\"topic\":\"" ++ d.topic ++ "\",\"questions\":[" ++
    String.intercalate "," (d.questions.map serializeQuestion) ++ "]\x7d"

/-- Stand-in for `JSON.stringify(object, null, 2)` in the planner.  Opaque to
every claim, like `serializeFlashcards`. -/
def serializeStudyPlan (d : StudyPlanData) : String :=
  "\x7b\"topic\":\"" ++ d.topic ++ "\",\"duration\":\"" ++ d.duration ++
    "\",\"weeks\":" ++ toString d.weeks.length ++ "\x7d"

/-- Arguments of the quiz master after zod validation (its `inputSchema`). -/
structure QuizArgs where
  topic : String
  numberOfQuestions : Rat
  difficulty : String
  focusAreas : Option (List String)
  deriving DecidableEq, Repr

/-- Arguments of the planner after zod validation (its `inputSchema`). -/
structure PlannerArgs where
  topic : String
  timeframe : String
  hoursPerDay : Rat
  currentLevel : String
  goals : Option (List String)
  deriving DecidableEq, Repr

/-- The message carried by the `ChatSDKError` that `saveDocument` throws on a
database failure (lib/db/queries.ts). -/
def saveDocumentErrorMessage : String := "Failed to save document"

/-- The `execute` body of `createQuizMasterAgent` (lib/ai/agents/quiz-master.ts).

Parameters play the role of the effects of the real code: `documentId` is the
`crypto.randomUUID()` result, `gen` the outcome of the `generateObject` call
(`.ok` payload or `.error` thrown message), `authenticated` whether
`session?.user?.id` is set, and `saveThrows` whether `saveDocument` throws.
Control flow follows the source: the four panel-opening events are written
before the `try`; inside the `try` the content delta and `data-finish` are
written and then, for an authenticated user, `saveDocument` is awaited
(still inside the `try`); the `catch` writes `data-finish` again and returns
a failure result.  Returns the ordered list of `dataStream.write` calls and
the returned `AgentResult`. -/
def quizMasterExecute (args : QuizArgs) (documentId : String)
    (gen : Except String FlashcardData) (authenticated : Bool)
    (saveThrows : Bool) : List DataEvent × AgentResult :=
  let title := "Quiz: " ++ args.topic
  let pre : List DataEvent :=
    [.dataId documentId, .dataTitle title, .dataKind "flashcard", .dataClear]
  match gen with
  | .ok object =>
      let content := serializeFlashcards object
      let okEvents := pre ++ [.flashcardDelta content, .dataFinish]
      if authenticated && saveThrows then
        (okEvents ++ [.dataFinish],
         { agentName := "quiz-master", success := false,
           summary := "Failed to generate quiz about \"" ++ args.topic ++
             "\": " ++ saveDocumentErrorMessage ++ ". Please try again." })
      else
        (okEvents,
         { agentName := "quiz-master", success := true,
           summary := "Created an interactive quiz about \"" ++ args.topic ++
             "\" with " ++ toString object.questions.length ++
             " questions. The flashcard quiz is now displayed - click through to test your knowledge!" })
  | .error errorMessage =>
      (pre ++ [.dataFinish],
       { agentName := "quiz-master", success := false,
         summary := "Failed to generate quiz about \"" ++ args.topic ++
           "\": " ++ errorMessage ++ ". Please try again." })

/-- The `execute` body of `createPlannerAgent` (lib/ai/agents/planner.ts),
with the same control flow as `quizMasterExecute` but the study-plan kind,
delta tag, title prefix and result texts. -/
def plannerExecute (args : PlannerArgs) (documentId : String)
    (gen : Except String StudyPlanData) (authenticated : Bool)
    (saveThrows : Bool) : List DataEvent × AgentResult :=
  let title := "Study Plan: " ++ args.topic
  let pre : List DataEvent :=
    [.dataId documentId, .dataTitle title, .dataKind "study-plan", .dataClear]
  match gen with
  | .ok object =>
      let content := serializeStudyPlan object
      let okEvents := pre ++ [.studyPlanDelta content, .dataFinish]
      if authenticated && saveThrows then
        (okEvents ++ [.dataFinish],
         { agentName := "planner", success := false,
           summary := "Failed to generate study plan for \"" ++ args.topic ++
             "\": " ++ saveDocumentErrorMessage ++ ". Please try again." })
      else
        (okEvents,
         { agentName := "planner", success := true,
           summary := "Created a " ++ args.timeframe ++ " study plan for \"" ++
             args.topic ++ "\" with " ++ toString object.weeks.length ++
             " weeks. The interactive study plan is now displayed - you can track your progress by checking off tasks as you complete them!" })
  | .error errorMessage =>
      (pre ++ [.dataFinish],
       { agentName := "planner", success := false,
         summary := "Failed to generate study plan for \"" ++ args.topic ++
           "\": " ++ errorMessage ++ ". Please try again." })

/-- Arguments of the tutor after zod validation (its `inputSchema`). -/
structure TutorArgs where
  topic : String
  depth : String
  context : Option String
  deriving DecidableEq, Repr

/-- Arguments of the analyst after zod validation (its `inputSchema`). -/
structure AnalystArgs where
  content : String
  analysisType : String
  focusOn : Option String
  outputLength : String
  deriving DecidableEq, Repr

/-- The `execute` body of `createTutorAgent` (lib/ai/agents/tutor.ts).

`gen` is the outcome of the `generateText` call.  The body has no try/catch,
so a thrown error propagates past the unit boundary; this is the `Except`
bind. -/
def tutorExecute (args : TutorArgs) (gen : Except String String) :
    Except String AgentResult := do
  let text ← gen
  return { agentName := "tutor", success := true, summary := text }

/-- The `execute` body of `createAnalystAgent` (lib/ai/agents/analyst.ts).
Like the tutor there is no try/catch around `generateText`. -/
def analystExecute (args : AnalystArgs) (gen : Except String String) :
    Except String AgentResult := do
  let text ← gen
  return { agentName := "analyst", success := true, summary := text }

/-- View of `quizMasterExecute` at the unit boundary: every internal exception
(`generateObject` or `saveDocument` throwing) is caught by the body's
try/catch, so the boundary result is always `.ok`. -/
def quizMasterBoundary (args : QuizArgs) (documentId : String)
    (gen : Except String FlashcardData) (authenticated saveThrows : Bool) :
    Except String (List DataEvent × AgentResult) :=
  .ok (quizMasterExecute args documentId gen authenticated saveThrows)

/-- View of `plannerExecute` at the unit boundary (see `quizMasterBoundary`). -/
def plannerBoundary (args : PlannerArgs) (documentId : String)
    (gen : Except String StudyPlanData) (authenticated saveThrows : Bool) :
    Except String (List DataEvent × AgentResult) :=
  .ok (plannerExecute args documentId gen authenticated saveThrows)

/-! ### The client-side reducer (Artifact Channel consumer) -/

/-- The client artifact state mutated by `DataStreamHandler` (the fields of
`initialArtifactData` that the reducer touches). -/
structure UIArtifact where
  documentId : String
  title : String
  kind : String
  content : String
  status : String
  isVisible : Bool
  deriving DecidableEq, Repr

/-- The handler `flashcardArtifact.onStreamPart` (artifacts/flashcard/client.tsx): a
`data-flashcardDelta` replaces `content` with the payload, makes the panel
visible and sets status `streaming`; every other event leaves the draft
unchanged. -/
def flashcardOnStreamPart (streamPart : DataEvent) (draft : UIArtifact) :
    UIArtifact :=
  match streamPart with
  | .flashcardDelta d =>
      { draft with content := d, isVisible := true, status := "streaming" }
  | _ => draft

/-- The `switch (delta.type)` of the `setArtifact` updater inside
`DataStreamHandler` (components/data-stream-handler.tsx).  Delta tags fall
through to `default`, which returns the draft unchanged (they are handled by
`onStreamPart`). -/
def dataStreamHandlerSwitch (delta : DataEvent) (draftArtifact : UIArtifact) :
    UIArtifact :=
  match delta with
  | .dataId d => { draftArtifact with documentId := d, status := "streaming" }
  | .dataTitle d => { draftArtifact with title := d, status := "streaming" }
  | .dataKind d => { draftArtifact with kind := d, status := "streaming" }
  | .dataClear => { draftArtifact with content := "", status := "streaming" }
  | .dataFinish => { draftArtifact with status := "idle" }
  | _ => draftArtifact

/-- The application of a single stream delta by `DataStreamHandler` with the
flashcard artifact definition active: first the artifact definition's
`onStreamPart`, then the `setArtifact` switch. -/
def dataStreamHandlerApply (delta : DataEvent) (draft : UIArtifact) :
    UIArtifact :=
  dataStreamHandlerSwitch delta (flashcardOnStreamPart delta draft)

/-! ### zod input validation -/

/-- JSON-like values, the raw tool-call argument payloads fed to zod. -/
inductive JValue
  | null
  | bool (b : Bool)
  | num (q : Rat)
  | str (s : String)
  | arr (xs : List JValue)
  | obj (fields : List (String × JValue))

/-- Property access `object[key]` on a parsed JSON object: the first binding
of the key, `none` when the key is absent. -/
def jlookup (fields : List (String × JValue)) (key : String) : Option JValue :=
  match fields with
  | [] => none
  | (k, v) :: rest => if k = key then some v else jlookup rest key

/-- Interpretation of `z.array(z.string())`: all elements must be strings. -/
def asStringList : List JValue → Option (List String)
  | [] => some []
  | .str s :: rest => (asStringList rest).map (fun l => s :: l)
  | _ => none

/-- Field parser for `topic: z.string()` (required). -/
def zodRequiredString (fields : List (String × JValue)) (key : String) :
    Except String String :=
  match jlookup fields key with
  | some (.str s) => .ok s
  | some _ => .error key
  | none => .error key

/-- Field parser for `numberOfQuestions: z.number().min(1).max(10).default(5)`. -/
def zodNumberOfQuestions (fields : List (String × JValue)) :
    Except String Rat :=
  match jlookup fields "numberOfQuestions" with
  | none => .ok 5
  | some (.num q) =>
      if 1 ≤ q ∧ q ≤ 10 then .ok q else .error "numberOfQuestions"
  | some _ => .error "numberOfQuestions"

/-- Field parser for a `z.enum(values).default(dflt)` field. -/
def zodEnumWithDefault (fields : List (String × JValue)) (key : String)
    (values : List String) (dflt : String) : Except String String :=
  match jlookup fields key with
  | none => .ok dflt
  | some (.str s) => if s ∈ values then .ok s else .error key
  | some _ => .error key

/-- Field parser for `z.array(z.string()).optional()`. -/
def zodOptionalStringArray (fields : List (String × JValue)) (key : String) :
    Except String (Option (List String)) :=
  match jlookup fields key with
  | none => .ok none
  | some (.arr xs) =>
      match asStringList xs with
      | some l => .ok (some l)
      | none => .error key
  | some _ => .error key

/-- Field parser for `z.string().optional()`. -/
def zodOptionalString (fields : List (String × JValue)) (key : String) :
    Except String (Option String) :=
  match jlookup fields key with
  | none => .ok none
  | some (.str s) => .ok (some s)
  | some _ => .error key

/-- The zod `inputSchema` of `createQuizMasterAgent`:
`topic: z.string()`, `numberOfQuestions: z.number().min(1).max(10).default(5)`,
`difficulty: z.enum([easy, medium, hard, mixed]).default(medium)`,
`focusAreas: z.array(z.string()).optional()`.
zod object parsing checks the declared keys, applies `.default` when a key
is missing, rejects a missing required or mistyped field naming that field,
and strips undeclared keys (the default `z.object` mode).  The error value
is the offending field's name. -/
def quizMasterParseArgs (v : JValue) : Except String QuizArgs :=
  match v with
  | .obj fields =>
      (zodRequiredString fields "topic").bind fun topic =>
      (zodNumberOfQuestions fields).bind fun numberOfQuestions =>
      (zodEnumWithDefault fields "difficulty"
          ["easy", "medium", "hard", "mixed"] "medium").bind fun difficulty =>
      (zodOptionalStringArray fields "focusAreas").bind fun focusAreas =>
      .ok { topic, numberOfQuestions, difficulty, focusAreas }
  | _ => .error "input"

/-- The zod `inputSchema` of `createTutorAgent`: `topic: z.string()`,
`depth: z.enum([beginner, intermediate, advanced]).default(intermediate)`,
`context: z.string().optional()`. -/
def tutorParseArgs (v : JValue) : Except String TutorArgs :=
  match v with
  | .obj fields =>
      (zodRequiredString fields "topic").bind fun topic =>
      (zodEnumWithDefault fields "depth"
          ["beginner", "intermediate", "advanced"] "intermediate").bind
        fun depth =>
      (zodOptionalString fields "context").bind fun context =>
      .ok { topic, depth, context }
  | _ => .error "input"

/-- Modelled from the spec: the validate-then-dispatch wrapper.  The wrapper
that runs `inputSchema` validation before `execute` lives in the AI SDK's
`tool` machinery and in spec section 4.2 step 3 ("on validation failure
synthesize a Failure result citing the offending field"), not in this
repository.  Returns the invocation result together with a flag recording
whether the execute body was entered. -/
def quizMasterInvoke (rawArgs : JValue) (documentId : String)
    (gen : Except String FlashcardData) (authenticated saveThrows : Bool) :
    AgentResult × Bool :=
  match quizMasterParseArgs rawArgs with
  | .error field =>
      ({ agentName := "quiz-master", success := false,
         summary := "Invalid arguments: field " ++ field }, false)
  | .ok args =>
      ((quizMasterExecute args documentId gen authenticated saveThrows).2, true)

/-- Modelled from the spec: the validate-then-dispatch wrapper for the tutor
(spec section 4.2 step 3, the AI SDK `tool` machinery — not in this
repository): on validation failure a Failure citing the offending field is
synthesized and the execute body is not entered; on success the tutor's
`execute` runs (and may itself throw, see `tutorExecute`).  The second
component records whether the execute body was entered. -/
def tutorInvoke (rawArgs : JValue) (gen : Except String String) :
    Except String AgentResult × Bool :=
  match tutorParseArgs rawArgs with
  | .error field =>
      (.ok { agentName := "tutor", success := false,
             summary := "Invalid arguments: field " ++ field }, false)
  | .ok args => (tutorExecute args gen, true)

/-- Validation of a single question by `flashcardSchema`: `question` a
string, `options` an array of strings of length exactly 4 (`.length(4)`),
`correctAnswer` a number with `.min(0).max(3)`, `explanation` a string. -/
def parseFlashcardQuestion (v : JValue) : Option FlashcardQuestion :=
  match v with
  | .obj fields =>
      match jlookup fields "question", jlookup fields "options",
            jlookup fields "correctAnswer", jlookup fields "explanation" with
      | some (.str question), some (.arr opts), some (.num correctAnswer),
        some (.str explanation) =>
          match asStringList opts with
          | some options =>
              if options.length = 4 ∧ 0 ≤ correctAnswer ∧ correctAnswer ≤ 3
              then some { question, options, correctAnswer, explanation }
              else none
          | none => none
      | _, _, _, _ => none
  | _ => none

/-- Validation of the `questions` array by `flashcardSchema`. -/
def parseFlashcardQuestions : List JValue → Option (List FlashcardQuestion)
  | [] => some []
  | v :: rest =>
      match parseFlashcardQuestion v with
      | some q => (parseFlashcardQuestions rest).map (fun l => q :: l)
      | none => none

/-- The `flashcardSchema` of lib/ai/agents/quiz-master.ts (also
artifacts/flashcard/server.ts): `topic: z.string()` and `questions` an array
of question objects.  `some` is a payload accepted by the schema. -/
def flashcardSchemaParse (v : JValue) : Option FlashcardData :=
  match v with
  | .obj fields =>
      match jlookup fields "topic", jlookup fields "questions" with
      | some (.str topic), some (.arr qs) =>
          (parseFlashcardQuestions qs).map (fun questions => { topic, questions })
      | _, _ => none
  | _ => none

/-! ### The Artifact Store (lib/db/queries.ts, documents collection) -/

/-- A record of the `documents` collection (lib/db/types.ts `Document`). -/
structure DocRecord where
  objectId : Nat
  id : String
  title : String
  kind : String
  content : String
  userId : String
  createdAt : Nat
  deriving DecidableEq, Repr

/-- Ascending `createdAt` order, the `sort({ createdAt: 1 })` key. -/
def byCreatedAtAsc (a b : DocRecord) : Prop := a.createdAt ≤ b.createdAt

/-- Descending `createdAt` order, the `sort({ createdAt: -1 })` key. -/
def byCreatedAtDesc (a b : DocRecord) : Prop := b.createdAt ≤ a.createdAt

instance : DecidableRel byCreatedAtAsc :=
  fun a b => inferInstanceAs (Decidable (a.createdAt ≤ b.createdAt))

instance : DecidableRel byCreatedAtDesc :=
  fun a b => inferInstanceAs (Decidable (b.createdAt ≤ a.createdAt))

instance : IsTotal DocRecord byCreatedAtAsc :=
  ⟨fun a b => Nat.le_total a.createdAt b.createdAt⟩

instance : IsTrans DocRecord byCreatedAtAsc :=
  ⟨fun _ _ _ h h2 => Nat.le_trans h h2⟩

instance : IsTotal DocRecord byCreatedAtDesc :=
  ⟨fun a b => Nat.le_total b.createdAt a.createdAt⟩

instance : IsTrans DocRecord byCreatedAtDesc :=
  ⟨fun _ _ _ h h2 => Nat.le_trans h2 h⟩

/-- `saveDocument` (lib/db/queries.ts): `insertOne` of a document built from
the arguments with a fresh `_id` (`new ObjectId()`, the `freshOid`
parameter) and `createdAt: new Date()` (the `now` parameter).  An insert
appends to the collection; no existing record is touched. -/
def saveDocument (store : List DocRecord) (freshOid now : Nat)
    (id title kind content userId : String) : List DocRecord :=
  store ++ [{ objectId := freshOid, id, title, kind, content, userId,
              createdAt := now }]

/-- `getDocumentsById` (lib/db/queries.ts): `find({ id })` sorted by
`createdAt` ascending. -/
def getDocumentsById (store : List DocRecord) (id : String) :
    List DocRecord :=
  List.insertionSort byCreatedAtAsc (store.filter (fun d => d.id == id))

/-- `getDocumentById` (lib/db/queries.ts): `find({ id })` sorted by
`createdAt` descending, `limit(1)`, first element or null. -/
def getDocumentById (store : List DocRecord) (id : String) :
    Option DocRecord :=
  (List.insertionSort byCreatedAtDesc (store.filter (fun d => d.id == id))).head?

/-! ### The orchestrator step loop -/

/-- A decision of the orchestrating model at one step: final text, or one
more capability invocation request. -/
inductive ModelDecision
  | finalText (t : String)
  | invoke (request : String)

/-- Modelled from the spec: the orchestrator loop of spec section 4.2.  The
loop itself (the step loop inside the AI SDK's `streamText`, stopped by
`stopWhen: stepCountIs(5)`) is not part of this repository; only its
configuration is (the chat route).  Each iteration asks the model for a
decision; final text appends and stops, an invocation folds the result back
into the conversation and consumes one unit of the step budget; a spent
budget forces termination with the partial conversation.  Returns the
number of capability-invocation steps performed and the final
conversation. -/
def orchestratorRun (model : List String → ModelDecision)
    (fold : String → String) (budget : Nat) (conversation : List String) :
    Nat × List String :=
  match budget with
  | 0 => (0, conversation)
  | b + 1 =>
      match model conversation with
      | .finalText t => (0, conversation ++ [t])
      | .invoke request =>
          let rest := orchestratorRun model fold b (conversation ++ [fold request])
          (rest.1 + 1, rest.2)

/-- The configured step budget: `stopWhen: stepCountIs(5)` in the chat
route's `streamText` call. -/
def stepBudget : Nat := 5

/-! ### The weather tool (chapter 1, lib/ai/tools/get-weather.ts) -/

/-- Input of `getWeather` after zod validation: all three fields optional. -/
structure WeatherInput where
  latitude : Option Rat
  longitude : Option Rat
  city : Option String
  deriving DecidableEq, Repr

/-- Outcome of the geocoding fetch inside `geocodeCity`. -/
inductive GeoOutcome
  | respNotOk
  | emptyResults
  | fetchThrew
  | found (latitude longitude : Rat)

/-- `geocodeCity` (chapter 1): returns null when the response is not ok,
when the results list is empty, or when the fetch throws (the surrounding
try/catch); otherwise the first result's coordinates. -/
def geocodeCity (outcome : GeoOutcome) : Option (Rat × Rat) :=
  match outcome with
  | .found latitude longitude => some (latitude, longitude)
  | _ => none

/-- Result of `getWeather.execute`: either one of the early error objects or
the weather payload fetched for the resolved coordinates (with `cityName`
attached when the input had a `city` key). -/
inductive WeatherOutput
  | errorResult (error : String)
  | weatherResult (latitude longitude : Rat) (cityName : Option String)
  deriving DecidableEq, Repr

/-- Which network calls an execution of `getWeather.execute` performed. -/
structure WeatherEffects where
  geocodeCalled : Bool
  weatherFetchCalled : Bool
  deriving DecidableEq, Repr

/-- The shared tail of `getWeather.execute`: the coordinate branch and the
final weather fetch.  The weather fetch is not wrapped in try/catch, so a
thrown fetch propagates (`.error`). -/
def getWeatherCoords (input : WeatherInput) (latitude longitude : Rat)
    (geocoded fetchThrows : Bool) :
    Except Unit WeatherOutput × WeatherEffects :=
  if fetchThrows then (.error (), { geocodeCalled := geocoded, weatherFetchCalled := true })
  else
    (.ok (.weatherResult latitude longitude input.city),
     { geocodeCalled := geocoded, weatherFetchCalled := true })

/-- `getWeather.execute` (chapter 1).  `if (input.city)` is JavaScript
truthiness, so an empty-string city falls through to the coordinate branch;
a truthy city is geocoded and a failed geocode returns the error object
naming the city without fetching weather; with no truthy city and not both
coordinates, the "please provide" error object is returned with no network
call at all. -/
def getWeatherExecute (input : WeatherInput) (geo : GeoOutcome)
    (fetchThrows : Bool) : Except Unit WeatherOutput × WeatherEffects :=
  match input.city with
  | some c =>
      if c = "" then
        match input.latitude, input.longitude with
        | some latitude, some longitude =>
            getWeatherCoords input latitude longitude false fetchThrows
        | _, _ =>
            (.ok (.errorResult "Please provide either a city name or both latitude and longitude coordinates."),
             { geocodeCalled := false, weatherFetchCalled := false })
      else
        match geocodeCity geo with
        | none =>
            (.ok (.errorResult ("Could not find coordinates for \"" ++ c ++
               "\". Please check the city name.")),
             { geocodeCalled := true, weatherFetchCalled := false })
        | some (latitude, longitude) =>
            getWeatherCoords input latitude longitude true fetchThrows
  | none =>
      match input.latitude, input.longitude with
      | some latitude, some longitude =>
          getWeatherCoords input latitude longitude false fetchThrows
      | _, _ =>
          (.ok (.errorResult "Please provide either a city name or both latitude and longitude coordinates."),
           { geocodeCalled := false, weatherFetchCalled := false })

/-! ### Event classification helpers -/

/-- Recognizes `data-id` events. -/
def isSetId : DataEvent → Bool
  | .dataId _ => true
  | _ => false

/-- Recognizes `data-title` events. -/
def isSetTitle : DataEvent → Bool
  | .dataTitle _ => true
  | _ => false

/-- Recognizes `data-kind` events. -/
def isSetKind : DataEvent → Bool
  | .dataKind _ => true
  | _ => false

/-- Recognizes `data-clear` events. -/
def isClear : DataEvent → Bool
  | .dataClear => true
  | _ => false

/-- Recognizes content delta events (`data-flashcardDelta` or
`data-studyPlanDelta`). -/
def isContentDelta : DataEvent → Bool
  | .flashcardDelta _ => true
  | .studyPlanDelta _ => true
  | _ => false

/-- Recognizes `data-finish` events. -/
def isFinish : DataEvent → Bool
  | .dataFinish => true
  | _ => false

/-- Whether a downstream generation call returned instead of throwing. -/
def genSucceeded {ε α : Type} : Except ε α → Bool
  | .ok _ => true
  | .error _ => false

/-- The ordering discipline of one artifact creation sequence: `SetId`,
`SetTitle`, `SetKind`, `Clear` each occur exactly once, at positions 0-3 (so
in that order and before any content delta), and when generation succeeded
there is exactly one content delta and it precedes the first `Finish`. -/
def orderedCreation (evs : List DataEvent) (genOk : Bool) : Prop :=
  evs.countP isSetId = 1 ∧ evs.countP isSetTitle = 1 ∧
  evs.countP isSetKind = 1 ∧ evs.countP isClear = 1 ∧
  evs.findIdx isSetId = 0 ∧ evs.findIdx isSetTitle = 1 ∧
  evs.findIdx isSetKind = 2 ∧ evs.findIdx isClear = 3 ∧
  4 ≤ evs.findIdx isContentDelta ∧
  (genOk = true → evs.countP isContentDelta = 1 ∧
    evs.findIdx isContentDelta < evs.findIdx isFinish)

/-- C3: in every execution of the quiz-master's and the planner's `execute`,
the events `data-id`, `data-title`, `data-kind`, `data-clear` are each
emitted exactly once, in that order, before the first content delta, and on
the success path the single content delta is emitted before
`data-finish`. -/
theorem artifact_creation_event_ordering
    (qargs : QuizArgs) (pargs : PlannerArgs) (docId : String)
    (qgen : Except String FlashcardData) (pgen : Except String StudyPlanData)
    (auth save : Bool) :
    orderedCreation (quizMasterExecute qargs docId qgen auth save).1
      (genSucceeded qgen) ∧
    orderedCreation (plannerExecute pargs docId pgen auth save).1
      (genSucceeded pgen) := by
  constructor
  · rcases qgen with e | o <;> cases hb : auth && save <;>
      simp [quizMasterExecute, orderedCreation, genSucceeded, hb,
        isSetId, isSetTitle, isSetKind, isClear, isContentDelta, isFinish,
        List.findIdx_cons, List.countP_cons]
  · rcases pgen with e | o <;> cases hb : auth && save <;>
      simp [plannerExecute, orderedCreation, genSucceeded, hb,
        isSetId, isSetTitle, isSetKind, isClear, isContentDelta, isFinish,
        List.findIdx_cons, List.countP_cons]

/-- C3 witness: the ordering discipline at a concrete successful quiz
execution. -/
theorem artifact_creation_event_ordering_witness :
    orderedCreation
      (quizMasterExecute (⟨"w3", 5, "medium", none⟩ : QuizArgs) "doc-w3"
        (.ok (⟨"w3", []⟩ : FlashcardData)) false false).1
      (genSucceeded ((.ok ⟨"w3", []⟩ : Except String FlashcardData))) :=
  (artifact_creation_event_ordering
    (⟨"w3", 5, "medium", none⟩ : QuizArgs)
    (⟨"w3", "2 weeks", 1, "complete beginner", none⟩ : PlannerArgs)
    "doc-w3" (.ok (⟨"w3", []⟩ : FlashcardData))
    (.ok (⟨"w3", "2 weeks", "o", [], []⟩ : StudyPlanData)) false false).1

/-- C1 counterexample: when `generateObject` succeeds, the owner is
authenticated and `saveDocument` throws, the quiz-master writes two
`data-finish` events, not exactly one. -/
theorem quizMaster_single_finish_cex :
    ¬ ((quizMasterExecute (⟨"t1", 5, "medium", none⟩ : QuizArgs) "doc-c1"
        (.ok (⟨"t1", []⟩ : FlashcardData)) true true).1.countP isFinish
        = 1) := by
  decide

/-- C1 (amended): in every execution of the quiz-master's or planner's
`execute` the last event written is a `data-finish`; exactly one
`data-finish` is written unless generation succeeded, the owner is
authenticated and `saveDocument` throws, in which case the catch block
writes a second one (exactly two). -/
theorem finish_emission
    (qargs : QuizArgs) (pargs : PlannerArgs) (docId : String)
    (qgen : Except String FlashcardData) (pgen : Except String StudyPlanData)
    (auth save : Bool) :
    (¬(genSucceeded qgen = true ∧ auth = true ∧ save = true) →
      (quizMasterExecute qargs docId qgen auth save).1.countP isFinish = 1) ∧
    (genSucceeded qgen = true ∧ auth = true ∧ save = true →
      (quizMasterExecute qargs docId qgen auth save).1.countP isFinish = 2) ∧
    (quizMasterExecute qargs docId qgen auth save).1.getLast? =
      some .dataFinish ∧
    (¬(genSucceeded pgen = true ∧ auth = true ∧ save = true) →
      (plannerExecute pargs docId pgen auth save).1.countP isFinish = 1) ∧
    (genSucceeded pgen = true ∧ auth = true ∧ save = true →
      (plannerExecute pargs docId pgen auth save).1.countP isFinish = 2) ∧
    (plannerExecute pargs docId pgen auth save).1.getLast? =
      some .dataFinish := by
  rcases qgen with e | o <;> rcases pgen with e2 | o2 <;>
    cases ha : auth <;> cases hs : save <;>
      simp [quizMasterExecute, plannerExecute, genSucceeded, isFinish,
        List.countP_cons]

/-- C1 witness: one `data-finish` on an error-path execution, two when an
authenticated save throws after a successful generation. -/
theorem finish_emission_witness :
    ((quizMasterExecute (⟨"w1", 5, "medium", none⟩ : QuizArgs) "doc-w1"
      (.error "boom") false false).1.countP isFinish = 1) ∧
    ((plannerExecute (⟨"w1", "2 weeks", 1, "complete beginner", none⟩ : PlannerArgs)
      "doc-w1b" (.ok (⟨"w1", "2 weeks", "o", [], []⟩ : StudyPlanData)) true true).1.countP isFinish = 2) := by
  constructor
  · exact (finish_emission
      (⟨"w1", 5, "medium", none⟩ : QuizArgs)
      (⟨"w1", "2 weeks", 1, "complete beginner", none⟩ : PlannerArgs)
      "doc-w1" (.error "boom") (.error "x") false false).1 (by decide)
  · exact (finish_emission
      (⟨"w1", 5, "medium", none⟩ : QuizArgs)
      (⟨"w1", "2 weeks", 1, "complete beginner", none⟩ : PlannerArgs)
      "doc-w1b" (.error "boom")
      (.ok (⟨"w1", "2 weeks", "o", [], []⟩ : StudyPlanData)) true true).2.2.2.2.1 (by decide)

/-- C2 counterexample: when `saveDocument` throws after the delta and
`data-finish` were emitted for an authenticated owner, `execute` does not
return the Success result — it returns a failure. -/
theorem persistence_failure_not_swallowed_cex :
    ¬ ((quizMasterExecute (⟨"t2", 5, "medium", none⟩ : QuizArgs) "doc-c2"
        (.ok (⟨"t2", []⟩ : FlashcardData)) true true).2.success
        = true) := by
  decide

/-- C2 (amended): a `saveDocument` failure after a successful generation for
an authenticated owner is not swallowed: control jumps to the catch block,
which emits one further channel event (a second `data-finish`), and
`execute` returns a Failure result whose summary reports the persistence
error. -/
theorem persistence_failure_surfaces
    (qargs : QuizArgs) (pargs : PlannerArgs) (docId : String)
    (qobj : FlashcardData) (pobj : StudyPlanData) :
    quizMasterExecute qargs docId (.ok qobj) true true =
      ([.dataId docId, .dataTitle ("Quiz: " ++ qargs.topic),
        .dataKind "flashcard", .dataClear,
        .flashcardDelta (serializeFlashcards qobj), .dataFinish, .dataFinish],
       { agentName := "quiz-master", success := false,
         summary := "Failed to generate quiz about \"" ++ qargs.topic ++
           "\": " ++ saveDocumentErrorMessage ++ ". Please try again." }) ∧
    plannerExecute pargs docId (.ok pobj) true true =
      ([.dataId docId, .dataTitle ("Study Plan: " ++ pargs.topic),
        .dataKind "study-plan", .dataClear,
        .studyPlanDelta (serializeStudyPlan pobj), .dataFinish, .dataFinish],
       { agentName := "planner", success := false,
         summary := "Failed to generate study plan for \"" ++ pargs.topic ++
           "\": " ++ saveDocumentErrorMessage ++ ". Please try again." }) :=
  ⟨rfl, rfl⟩

/-- C4: the per-event transitions of the client-side reducer.  `data-id`,
`data-title`, `data-kind` and `data-clear` set their field and leave the
status `streaming`; a content delta replaces the content (independent of the
previous content) and keeps status `streaming`; `data-finish` sets status
`idle` unconditionally, whatever the prior state. -/
theorem dataStreamHandler_transitions (s : UIArtifact) (d : String) :
    dataStreamHandlerApply (.dataId d) s =
      { s with documentId := d, status := "streaming" } ∧
    dataStreamHandlerApply (.dataTitle d) s =
      { s with title := d, status := "streaming" } ∧
    dataStreamHandlerApply (.dataKind d) s =
      { s with kind := d, status := "streaming" } ∧
    dataStreamHandlerApply .dataClear s =
      { s with content := "", status := "streaming" } ∧
    dataStreamHandlerApply (.flashcardDelta d) s =
      { s with content := d, isVisible := true, status := "streaming" } ∧
    dataStreamHandlerApply .dataFinish s = { s with status := "idle" } :=
  ⟨rfl, rfl, rfl, rfl, rfl, rfl⟩

/-- C5 counterexample: the tutor's `execute` has no try/catch, so a throwing
`generateText` propagates past the unit boundary instead of being returned
as an `AgentResult`. -/
theorem tutor_propagates_exception_cex :
    tutorExecute (⟨"closures", "intermediate", none⟩ : TutorArgs)
      (.error "network error") = .error "network error" := rfl

/-- C5 (amended): the quiz-master's and planner's `execute` catch every
internal exception and return exactly one `AgentResult` at the unit
boundary; the tutor's and analyst's `execute` have no try/catch, so a
throwing `generateText` propagates unchanged past the unit boundary (and a
successful one yields exactly one success result). -/
theorem unit_boundary_exceptions
    (qargs : QuizArgs) (pargs : PlannerArgs) (targs : TutorArgs)
    (aargs : AnalystArgs) (docId : String)
    (qgen : Except String FlashcardData) (pgen : Except String StudyPlanData)
    (tgen agen : Except String String) (auth save : Bool) :
    quizMasterBoundary qargs docId qgen auth save =
      .ok (quizMasterExecute qargs docId qgen auth save) ∧
    plannerBoundary pargs docId pgen auth save =
      .ok (plannerExecute pargs docId pgen auth save) ∧
    (∀ e, tgen = .error e → tutorExecute targs tgen = .error e) ∧
    (∀ t, tgen = .ok t →
      tutorExecute targs tgen = .ok ⟨"tutor", true, t⟩) ∧
    (∀ e, agen = .error e → analystExecute aargs agen = .error e) ∧
    (∀ t, agen = .ok t →
      analystExecute aargs agen = .ok ⟨"analyst", true, t⟩) := by
  refine ⟨rfl, rfl, ?_, ?_, ?_, ?_⟩ <;> rintro x rfl <;> rfl

/-- C5 witness: the boundary behaviour at concrete outcomes — a throwing
`generateText` surfaces as a thrown error from the tutor, a successful one
as a single success result from the analyst. -/
theorem unit_boundary_exceptions_witness :
    tutorExecute (⟨"recursion", "beginner", none⟩ : TutorArgs)
      (.error "boom") = .error "boom" ∧
    analystExecute (⟨"text", "summary", none, "moderate"⟩ : AnalystArgs)
      (.ok "analysis text") = .ok ⟨"analyst", true, "analysis text"⟩ := by
  constructor
  · exact (unit_boundary_exceptions (⟨"w5", 5, "medium", none⟩ : QuizArgs)
      (⟨"w5", "2 weeks", 1, "complete beginner", none⟩ : PlannerArgs)
      (⟨"recursion", "beginner", none⟩ : TutorArgs)
      (⟨"text", "summary", none, "moderate"⟩ : AnalystArgs)
      "doc-w5" (.error "x") (.error "x") (.error "boom") (.ok "analysis text")
      false false).2.2.1 "boom" rfl
  · exact (unit_boundary_exceptions (⟨"w5", 5, "medium", none⟩ : QuizArgs)
      (⟨"w5", "2 weeks", 1, "complete beginner", none⟩ : PlannerArgs)
      (⟨"recursion", "beginner", none⟩ : TutorArgs)
      (⟨"text", "summary", none, "moderate"⟩ : AnalystArgs)
      "doc-w5" (.error "x") (.error "x") (.error "boom") (.ok "analysis text")
      false false).2.2.2.2.2 "analysis text" rfl

/-- Appending a binding for a different key does not change a lookup. -/
theorem jlookup_append_single (fields : List (String × JValue))
    (key name : String) (v : JValue) (h : name ≠ key) :
    jlookup (fields ++ [(key, v)]) name = jlookup fields name := by
  induction fields with
  | nil => simp [jlookup, Ne.symm h]
  | cons kv rest ih =>
      rcases kv with ⟨k, w⟩
      by_cases hk : k = name <;> simp [jlookup, hk, ih]

/-- The raw argument object of the C6 counterexample: a valid `topic` plus
one field not declared in the quiz-master's `inputSchema`. -/
def extraFieldPayload : JValue :=
  .obj [("topic", .str "algebra"), ("unexpectedField", .num 1)]

/-- C6 counterexample: an argument object carrying an additional field not
declared in the quiz-master's `inputSchema` is not rejected — zod's default
object mode strips the unknown key, validation succeeds, and the execute
body is entered. -/
theorem additional_field_not_rejected_cex :
    quizMasterParseArgs extraFieldPayload =
      .ok (⟨"algebra", 5, "medium", none⟩ : QuizArgs) ∧
    (quizMasterInvoke extraFieldPayload "doc-c6" (.error "e") false false).2
      = true := ⟨rfl, rfl⟩

/-- A present but non-string value makes a required-string field error with
that field's name. -/
theorem zodRequiredString_not_str {fields : List (String × JValue)}
    {key : String} {v : JValue} (h : jlookup fields key = some v)
    (hv : ∀ s, v ≠ .str s) : zodRequiredString fields key = .error key := by
  unfold zodRequiredString
  rw [h]
  rcases v with _ | b | q | s | xs | fs
  · rfl
  · rfl
  · rfl
  · exact absurd rfl (hv s)
  · rfl
  · rfl

/-- A present but non-number value makes `numberOfQuestions` error with that
field's name. -/
theorem zodNumberOfQuestions_not_num {fields : List (String × JValue)}
    {v : JValue} (h : jlookup fields "numberOfQuestions" = some v)
    (hv : ∀ q, v ≠ .num q) :
    zodNumberOfQuestions fields = .error "numberOfQuestions" := by
  unfold zodNumberOfQuestions
  rw [h]
  rcases v with _ | b | q | s | xs | fs
  · rfl
  · rfl
  · exact absurd rfl (hv q)
  · rfl
  · rfl
  · rfl

/-- A present but non-string value makes an enum field error with that
field's name. -/
theorem zodEnumWithDefault_not_str {fields : List (String × JValue)}
    {key : String} {v : JValue} (values : List String) (dflt : String)
    (h : jlookup fields key = some v) (hv : ∀ s, v ≠ .str s) :
    zodEnumWithDefault fields key values dflt = .error key := by
  unfold zodEnumWithDefault
  rw [h]
  rcases v with _ | b | q | s | xs | fs
  · rfl
  · rfl
  · rfl
  · exact absurd rfl (hv s)
  · rfl
  · rfl

/-- A present but non-array value makes an optional string-array field error
with that field's name. -/
theorem zodOptionalStringArray_not_arr {fields : List (String × JValue)}
    {key : String} {v : JValue} (h : jlookup fields key = some v)
    (hv : ∀ xs, v ≠ .arr xs) :
    zodOptionalStringArray fields key = .error key := by
  unfold zodOptionalStringArray
  rw [h]
  rcases v with _ | b | q | s | xs | fs
  · rfl
  · rfl
  · rfl
  · rfl
  · exact absurd rfl (hv xs)
  · rfl

/-- A present but non-string value makes an optional string field error with
that field's name. -/
theorem zodOptionalString_not_str {fields : List (String × JValue)}
    {key : String} {v : JValue} (h : jlookup fields key = some v)
    (hv : ∀ s, v ≠ .str s) : zodOptionalString fields key = .error key := by
  unfold zodOptionalString
  rw [h]
  rcases v with _ | b | q | s | xs | fs
  · rfl
  · rfl
  · rfl
  · exact absurd rfl (hv s)
  · rfl
  · rfl

/-- C6 (amended): a missing required field or a declared field of the wrong
structural type — in either cited schema, the quiz-master's (`topic`,
`numberOfQuestions`, `difficulty`, `focusAreas`) or the tutor's (`topic`,
`depth`, `context`) — is rejected with a Failure citing that field, and the
execute body is never entered; an additional undeclared field, however, is
stripped by zod's default object mode and leaves validation unchanged.
(A mistyped non-leading field is cited when the fields before it in schema
order validate, matching zod's issue ordering.) -/
theorem input_validation
    (fields tfields : List (String × JValue)) (docId : String)
    (gen : Except String FlashcardData) (tgen : Except String String)
    (auth save : Bool) :
    (∀ f, quizMasterParseArgs (.obj fields) = .error f →
      quizMasterInvoke (.obj fields) docId gen auth save =
        ({ agentName := "quiz-master", success := false,
           summary := "Invalid arguments: field " ++ f }, false)) ∧
    (jlookup fields "topic" = none →
      quizMasterParseArgs (.obj fields) = .error "topic") ∧
    (∀ v, jlookup fields "topic" = some v → (∀ s, v ≠ .str s) →
      quizMasterParseArgs (.obj fields) = .error "topic") ∧
    (∀ s v, jlookup fields "topic" = some (.str s) →
      jlookup fields "numberOfQuestions" = some v → (∀ q, v ≠ .num q) →
      quizMasterParseArgs (.obj fields) = .error "numberOfQuestions") ∧
    (∀ s v, jlookup fields "topic" = some (.str s) →
      jlookup fields "numberOfQuestions" = none →
      jlookup fields "difficulty" = some v → (∀ s2, v ≠ .str s2) →
      quizMasterParseArgs (.obj fields) = .error "difficulty") ∧
    (∀ s v, jlookup fields "topic" = some (.str s) →
      jlookup fields "numberOfQuestions" = none →
      jlookup fields "difficulty" = none →
      jlookup fields "focusAreas" = some v → (∀ xs, v ≠ .arr xs) →
      quizMasterParseArgs (.obj fields) = .error "focusAreas") ∧
    (∀ key v,
      key ∉ ["topic", "numberOfQuestions", "difficulty", "focusAreas"] →
      quizMasterParseArgs (.obj (fields ++ [(key, v)])) =
        quizMasterParseArgs (.obj fields)) ∧
    (∀ f, tutorParseArgs (.obj tfields) = .error f →
      tutorInvoke (.obj tfields) tgen =
        (.ok { agentName := "tutor", success := false,
               summary := "Invalid arguments: field " ++ f }, false)) ∧
    (jlookup tfields "topic" = none →
      tutorParseArgs (.obj tfields) = .error "topic") ∧
    (∀ v, jlookup tfields "topic" = some v → (∀ s, v ≠ .str s) →
      tutorParseArgs (.obj tfields) = .error "topic") ∧
    (∀ s v, jlookup tfields "topic" = some (.str s) →
      jlookup tfields "depth" = some v → (∀ s2, v ≠ .str s2) →
      tutorParseArgs (.obj tfields) = .error "depth") ∧
    (∀ s v, jlookup tfields "topic" = some (.str s) →
      jlookup tfields "depth" = none →
      jlookup tfields "context" = some v → (∀ s2, v ≠ .str s2) →
      tutorParseArgs (.obj tfields) = .error "context") ∧
    (∀ key v, key ∉ ["topic", "depth", "context"] →
      tutorParseArgs (.obj (tfields ++ [(key, v)])) =
        tutorParseArgs (.obj tfields)) := by
  refine ⟨?_, ?_, ?_, ?_, ?_, ?_, ?_, ?_, ?_, ?_, ?_, ?_, ?_⟩
  · intro f hf
    unfold quizMasterInvoke
    rw [hf]
  · intro h
    simp [quizMasterParseArgs, zodRequiredString, h, Except.bind]
  · intro v hv hstr
    simp [quizMasterParseArgs, zodRequiredString_not_str hv hstr, Except.bind]
  · intro s v ht hn hv
    simp [quizMasterParseArgs, zodRequiredString, ht,
      zodNumberOfQuestions_not_num hn hv, Except.bind]
  · intro s v ht hn hd hv
    simp [quizMasterParseArgs, zodRequiredString, ht, zodNumberOfQuestions,
      hn,
      zodEnumWithDefault_not_str ["easy", "medium", "hard", "mixed"] "medium"
        hd hv,
      Except.bind]
  · intro s v ht hn hd hfa hv
    simp [quizMasterParseArgs, zodRequiredString, ht, zodNumberOfQuestions,
      hn, zodEnumWithDefault, hd,
      zodOptionalStringArray_not_arr hfa hv, Except.bind]
  · intro key v hk
    simp only [List.mem_cons, not_or] at hk
    obtain ⟨h1, h2, h3, h4, -⟩ := hk
    simp only [quizMasterParseArgs, zodRequiredString, zodNumberOfQuestions,
      zodEnumWithDefault, zodOptionalStringArray,
      jlookup_append_single fields key "topic" v (fun h => h1 h.symm),
      jlookup_append_single fields key "numberOfQuestions" v (fun h => h2 h.symm),
      jlookup_append_single fields key "difficulty" v (fun h => h3 h.symm),
      jlookup_append_single fields key "focusAreas" v (fun h => h4 h.symm)]
  · intro f hf
    unfold tutorInvoke
    rw [hf]
  · intro h
    simp [tutorParseArgs, zodRequiredString, h, Except.bind]
  · intro v hv hstr
    simp [tutorParseArgs, zodRequiredString_not_str hv hstr, Except.bind]
  · intro s v ht hd hv
    simp [tutorParseArgs, zodRequiredString, ht,
      zodEnumWithDefault_not_str ["beginner", "intermediate", "advanced"]
        "intermediate" hd hv,
      Except.bind]
  · intro s v ht hd hc hv
    simp [tutorParseArgs, zodRequiredString, ht, zodEnumWithDefault, hd,
      zodOptionalString_not_str hc hv, Except.bind]
  · intro key v hk
    simp only [List.mem_cons, not_or] at hk
    obtain ⟨h1, h2, h3, -⟩ := hk
    simp only [tutorParseArgs, zodRequiredString, zodEnumWithDefault,
      zodOptionalString,
      jlookup_append_single tfields key "topic" v (fun h => h1 h.symm),
      jlookup_append_single tfields key "depth" v (fun h => h2 h.symm),
      jlookup_append_single tfields key "context" v (fun h => h3 h.symm)]

/-- C6 witness: concrete rejections for each schema — a missing `topic` and
a mistyped `topic`, `numberOfQuestions`, `difficulty` and `focusAreas` for
the quiz-master, a missing `topic` and a mistyped `topic`, `depth` and
`context` for the tutor, each citing the offending field with the execute
body not entered where the invoke wrapper is stated — and an undeclared
extra field leaving either validation unchanged. -/
theorem input_validation_witness :
    quizMasterInvoke (.obj [("numberOfQuestions", .num 3)]) "doc-w6"
      (.error "e") false false =
      ({ agentName := "quiz-master", success := false,
         summary := "Invalid arguments: field topic" }, false) ∧
    quizMasterParseArgs (.obj []) = .error "topic" ∧
    quizMasterParseArgs (.obj [("topic", .num 7)]) = .error "topic" ∧
    quizMasterParseArgs (.obj [("topic", .str "sets"),
      ("numberOfQuestions", .str "five")]) = .error "numberOfQuestions" ∧
    quizMasterParseArgs (.obj [("topic", .str "sets"),
      ("difficulty", .bool true)]) = .error "difficulty" ∧
    quizMasterParseArgs (.obj [("topic", .str "sets"),
      ("focusAreas", .str "algebra")]) = .error "focusAreas" ∧
    quizMasterParseArgs
        (.obj ([("topic", .str "sets")] ++ [("extra", .bool true)])) =
      quizMasterParseArgs (.obj [("topic", .str "sets")]) ∧
    tutorInvoke (.obj [("depth", .str "beginner")]) (.ok "text") =
      (.ok { agentName := "tutor", success := false,
             summary := "Invalid arguments: field topic" }, false) ∧
    tutorParseArgs (.obj [("topic", .arr [])]) = .error "topic" ∧
    tutorParseArgs (.obj [("topic", .str "closures"), ("depth", .num 2)]) =
      .error "depth" ∧
    tutorParseArgs (.obj [("topic", .str "closures"),
      ("context", .num 1)]) = .error "context" ∧
    tutorParseArgs
        (.obj ([("topic", .str "closures")] ++ [("extra2", .num 2)])) =
      tutorParseArgs (.obj [("topic", .str "closures")]) := by
  refine ⟨?_, ?_, ?_, ?_, ?_, ?_, ?_, ?_, ?_, ?_, ?_, ?_⟩
  · exact (input_validation [("numberOfQuestions", .num 3)] [] "doc-w6"
      (.error "e") (.ok "text") false false).1 "topic" rfl
  · exact (input_validation [] [] "doc-w6" (.error "e") (.ok "text")
      false false).2.1 rfl
  · exact (input_validation [("topic", .num 7)] [] "doc-w6" (.error "e")
      (.ok "text") false false).2.2.1 (.num 7) rfl
      (fun s h => JValue.noConfusion h)
  · exact (input_validation [("topic", .str "sets"),
      ("numberOfQuestions", .str "five")] [] "doc-w6" (.error "e")
      (.ok "text") false false).2.2.2.1 "sets" (.str "five") rfl rfl
      (fun q h => JValue.noConfusion h)
  · exact (input_validation [("topic", .str "sets"),
      ("difficulty", .bool true)] [] "doc-w6" (.error "e") (.ok "text")
      false false).2.2.2.2.1 "sets" (.bool true) rfl rfl rfl
      (fun s2 h => JValue.noConfusion h)
  · exact (input_validation [("topic", .str "sets"),
      ("focusAreas", .str "algebra")] [] "doc-w6" (.error "e") (.ok "text")
      false false).2.2.2.2.2.1 "sets" (.str "algebra") rfl rfl rfl rfl
      (fun xs h => JValue.noConfusion h)
  · exact (input_validation [("topic", .str "sets")] [] "doc-w6"
      (.error "e") (.ok "text") false false).2.2.2.2.2.2.1 "extra"
      (.bool true) (by decide)
  · exact (input_validation [] [("depth", .str "beginner")] "doc-w6"
      (.error "e") (.ok "text") false false).2.2.2.2.2.2.2.1 "topic" rfl
  · exact (input_validation [] [("topic", .arr [])] "doc-w6" (.error "e")
      (.ok "text") false false).2.2.2.2.2.2.2.2.2.1 (.arr []) rfl
      (fun s h => JValue.noConfusion h)
  · exact (input_validation [] [("topic", .str "closures"),
      ("depth", .num 2)] "doc-w6" (.error "e") (.ok "text")
      false false).2.2.2.2.2.2.2.2.2.2.1 "closures" (.num 2) rfl rfl
      (fun s2 h => JValue.noConfusion h)
  · exact (input_validation [] [("topic", .str "closures"),
      ("context", .num 1)] "doc-w6" (.error "e") (.ok "text")
      false false).2.2.2.2.2.2.2.2.2.2.2.1 "closures" (.num 1) rfl rfl rfl
      (fun s2 h => JValue.noConfusion h)
  · exact (input_validation [] [("topic", .str "closures")] "doc-w6"
      (.error "e") (.ok "text") false false).2.2.2.2.2.2.2.2.2.2.2.2
      "extra2" (.num 2) (by decide)

/-- The rational 3/2, built directly so that kernel evaluation is cheap. -/
def threeHalves : Rat := ⟨3, 2, by decide, by decide⟩

/-- A quiz payload whose single question carries the non-integer
`correctAnswer` 3/2 (with the required 4 options). -/
def halfAnswerPayload : JValue :=
  .obj [("topic", .str "x"),
        ("questions", .arr
          [.obj [("question", .str "q"),
                 ("options", .arr [.str "a", .str "b", .str "c", .str "d"]),
                 ("correctAnswer", .num threeHalves),
                 ("explanation", .str "e")]])]

/-- C7 counterexample: `flashcardSchema` accepts a payload whose
`correctAnswer` is 3/2 — `z.number().min(0).max(3)` has no `.int()` — so a
validated quiz's `correctAnswer` need not be an integer in 0..3. -/
theorem flashcard_noninteger_correctAnswer_cex :
    flashcardSchemaParse halfAnswerPayload =
      some ⟨"x", [⟨"q", ["a", "b", "c", "d"], threeHalves, "e"⟩]⟩ ∧
    threeHalves.den ≠ 1 ∧
    ¬(threeHalves = 0 ∨ threeHalves = 1 ∨ threeHalves = 2 ∨
      threeHalves = 3) := by
  refine ⟨by decide, by decide, by decide⟩

/-- Every question accepted by `flashcardSchema` has exactly 4 options and a
`correctAnswer` between 0 and 3. -/
theorem parseFlashcardQuestion_bounds {v : JValue} {q : FlashcardQuestion}
    (h : parseFlashcardQuestion v = some q) :
    q.options.length = 4 ∧ 0 ≤ q.correctAnswer ∧ q.correctAnswer ≤ 3 := by
  unfold parseFlashcardQuestion at h
  repeat' split at h
  all_goals try exact Option.noConfusion h
  injection h with h2
  subst h2
  simp_all

/-- All questions of an accepted `questions` array satisfy the bounds. -/
theorem parseFlashcardQuestions_bounds :
    ∀ (xs : List JValue) (l : List FlashcardQuestion),
      parseFlashcardQuestions xs = some l →
      ∀ q ∈ l, q.options.length = 4 ∧ 0 ≤ q.correctAnswer ∧
        q.correctAnswer ≤ 3 := by
  intro xs
  induction xs with
  | nil =>
      intro l h q hq
      simp only [parseFlashcardQuestions, Option.some_inj] at h
      subst h
      simp at hq
  | cons v rest ih =>
      intro l h q hq
      simp only [parseFlashcardQuestions] at h
      cases hv : parseFlashcardQuestion v with
      | none => rw [hv] at h; simp at h
      | some q0 =>
          rw [hv] at h
          cases hr : parseFlashcardQuestions rest with
          | none => rw [hr] at h; simp at h
          | some l0 =>
              rw [hr] at h
              have h2 : q0 :: l0 = l := by simpa using h
              subst h2
              rcases List.mem_cons.mp hq with rfl | hmem
              · exact parseFlashcardQuestion_bounds hv
              · exact ih l0 hr q hmem

/-- C7 (amended): every quiz payload accepted by `flashcardSchema` has, for
every question, exactly 4 options and a `correctAnswer` that is a number
between 0 and 3 inclusive (not necessarily an integer: the schema has no
`.int()` constraint). -/
theorem flashcardSchema_bounds (v : JValue) (d : FlashcardData)
    (h : flashcardSchemaParse v = some d) :
    ∀ q ∈ d.questions,
      q.options.length = 4 ∧ 0 ≤ q.correctAnswer ∧ q.correctAnswer ≤ 3 := by
  intro q hq
  unfold flashcardSchemaParse at h
  repeat' split at h
  all_goals simp_all
  rename_i qs hqs
  obtain ⟨questions, hparse, hd⟩ := h
  subst hd
  exact parseFlashcardQuestions_bounds _ _ hparse q hq

/-- C7 witness: the bounds at a concrete accepted payload. -/
theorem flashcardSchema_bounds_witness :
    (⟨"q", ["a", "b", "c", "d"], 2, "e"⟩ : FlashcardQuestion).options.length
      = 4 ∧
    (0 : Rat) ≤ (⟨"q", ["a", "b", "c", "d"], 2, "e"⟩ :
      FlashcardQuestion).correctAnswer ∧
    (⟨"q", ["a", "b", "c", "d"], 2, "e"⟩ :
      FlashcardQuestion).correctAnswer ≤ 3 :=
  flashcardSchema_bounds
    (.obj [("topic", .str "w"),
           ("questions", .arr
             [.obj [("question", .str "q"),
                    ("options", .arr [.str "a", .str "b", .str "c", .str "d"]),
                    ("correctAnswer", .num 2),
                    ("explanation", .str "e")]])])
    ⟨"w", [⟨"q", ["a", "b", "c", "d"], 2, "e"⟩]⟩ rfl
    ⟨"q", ["a", "b", "c", "d"], 2, "e"⟩ (by simp)

/-- C8: the Artifact Store is append-only — `saveDocument` appends one new
record carrying the fresh `_id` and fresh `createdAt` and leaves every
existing record in place unchanged; `getDocumentsById` returns exactly the
versions of the id, ordered ascending by `createdAt`; `getDocumentById`
returns a stored version of the id whose `createdAt` is greatest among all
versions of that id. -/
theorem artifact_store_append_only
    (store : List DocRecord) (freshOid now : Nat)
    (id title kind content userId : String) (docId : String) (r : DocRecord) :
    (saveDocument store freshOid now id title kind content userId =
      store ++ [{ objectId := freshOid, id, title, kind, content, userId,
                  createdAt := now }]) ∧
    (∀ v ∈ store, v ∈ saveDocument store freshOid now id title kind content userId) ∧
    (saveDocument store freshOid now id title kind content userId).length =
      store.length + 1 ∧
    List.Sorted byCreatedAtAsc (getDocumentsById store docId) ∧
    (getDocumentsById store docId).Perm
      (store.filter (fun d => d.id == docId)) ∧
    (getDocumentById store docId = some r →
      r ∈ store ∧ r.id = docId ∧
      ∀ v ∈ store, v.id = docId → v.createdAt ≤ r.createdAt) ∧
    (store.filter (fun d => d.id == docId) ≠ [] →
      (getDocumentById store docId).isSome = true) := by
  refine ⟨rfl, ?_, ?_, ?_, ?_, ?_, ?_⟩
  · intro v hv
    exact List.mem_append_left _ hv
  · simp [saveDocument]
  · exact List.sorted_insertionSort byCreatedAtAsc _
  · exact List.perm_insertionSort byCreatedAtAsc _
  · intro h
    unfold getDocumentById at h
    set fl := store.filter (fun d => d.id == docId) with hfl
    have hsort : List.Sorted byCreatedAtDesc
        (List.insertionSort byCreatedAtDesc fl) :=
      List.sorted_insertionSort byCreatedAtDesc fl
    have hperm : (List.insertionSort byCreatedAtDesc fl).Perm fl :=
      List.perm_insertionSort byCreatedAtDesc fl
    cases hl : List.insertionSort byCreatedAtDesc fl with
    | nil => rw [hl] at h; simp at h
    | cons a rest =>
        rw [hl] at h
        have har : a = r := by simpa using h
        subst har
        rw [hl] at hsort hperm
        have hmem : a ∈ fl := hperm.mem_iff.mp (List.mem_cons_self a rest)
        have hmem2 := List.mem_filter.mp (hfl ▸ hmem)
        refine ⟨hmem2.1, by simpa using hmem2.2, ?_⟩
        intro v hv hvid
        have hvfl : v ∈ fl := by
          rw [hfl]
          exact List.mem_filter.mpr ⟨hv, by simp [hvid]⟩
        rcases List.mem_cons.mp (hperm.mem_iff.mpr hvfl) with rfl | hvrest
        · exact Nat.le_refl _
        · exact List.rel_of_sorted_cons hsort v hvrest
  · intro h
    unfold getDocumentById
    cases hl : List.insertionSort byCreatedAtDesc
        (store.filter (fun d => d.id == docId)) with
    | nil =>
        exfalso
        have hperm := List.perm_insertionSort byCreatedAtDesc
          (store.filter (fun d => d.id == docId))
        rw [hl] at hperm
        exact h hperm.symm.eq_nil
    | cons a rest => simp [hl]

/-- An early version of a stored artifact (`createdAt` 10). -/
def demoDoc1 : DocRecord := ⟨1, "doc", "Quiz: a", "flashcard", "c1", "u", 10⟩

/-- A later version of the same artifact id (`createdAt` 20). -/
def demoDoc2 : DocRecord := ⟨2, "doc", "Quiz: a", "flashcard", "c2", "u", 20⟩

/-- C8 witness: on a concrete two-version store, the current version is
retrievable, and the older version's `createdAt` is bounded by it. -/
theorem artifact_store_append_only_witness :
    demoDoc1.createdAt ≤ demoDoc2.createdAt ∧
    (getDocumentById [demoDoc1, demoDoc2] "doc").isSome = true := by
  constructor
  · exact ((artifact_store_append_only [demoDoc1, demoDoc2] 3 30 "doc" "t"
      "k" "c" "u" "doc" demoDoc2).2.2.2.2.2.1 (by decide)).2.2 demoDoc1
      (by simp) (by decide)
  · exact (artifact_store_append_only [demoDoc1, demoDoc2] 3 30 "doc" "t"
      "k" "c" "u" "doc" demoDoc2).2.2.2.2.2.2 (by decide)

/-- With a model that always requests another invocation, the loop performs
exactly `budget` invocation steps and grows the conversation by `budget`
fold-backs. -/
theorem orchestratorRun_always_invoke (request : String)
    (fold : String → String) :
    ∀ (budget : Nat) (conversation : List String),
      (orchestratorRun (fun _ => .invoke request) fold budget
        conversation).1 = budget ∧
      (orchestratorRun (fun _ => .invoke request) fold budget
        conversation).2.length = conversation.length + budget := by
  intro budget
  induction budget with
  | zero => intro conversation; simp [orchestratorRun]
  | succ b ih =>
      intro conversation
      have h := ih (conversation ++ [fold request])
      have hstep : orchestratorRun (fun _ => .invoke request) fold (b + 1)
          conversation =
          ((orchestratorRun (fun _ => .invoke request) fold b
             (conversation ++ [fold request])).1 + 1,
           (orchestratorRun (fun _ => .invoke request) fold b
             (conversation ++ [fold request])).2) := rfl
      rw [hstep]
      refine ⟨by rw [h.1], ?_⟩
      rw [h.2]
      simp
      omega

/-- C9: with the configured step budget of 5 (`stopWhen: stepCountIs(5)`),
even a pathological model that requests another capability invocation at
every step drives the loop to terminate at exactly 5 invocation steps,
force-stopped with the (non-empty) partial result. -/
theorem step_budget_enforcement (request : String) (fold : String → String)
    (conversation : List String) :
    (orchestratorRun (fun _ => .invoke request) fold stepBudget
      conversation).1 = 5 ∧
    (orchestratorRun (fun _ => .invoke request) fold stepBudget
      conversation).2.length = conversation.length + 5 ∧
    conversation.length <
      (orchestratorRun (fun _ => .invoke request) fold stepBudget
        conversation).2.length := by
  have h := orchestratorRun_always_invoke request fold stepBudget conversation
  refine ⟨h.1, h.2, ?_⟩
  rw [h.2]
  simp only [stepBudget]
  omega

/-- C10: `getWeather.execute` with no city and not both coordinates returns
the "please provide" error object and performs neither a geocoding nor a
weather fetch; with a (truthy) city whose geocoding fails — response not
ok, empty results, or thrown fetch — it returns, rather than throwing, an
error object naming the city, without fetching weather. -/
theorem getWeather_error_handling (input : WeatherInput) (geo : GeoOutcome)
    (fetchThrows : Bool) (c : String) :
    (input.city = none →
      ¬(input.latitude.isSome = true ∧ input.longitude.isSome = true) →
      getWeatherExecute input geo fetchThrows =
        (.ok (.errorResult "Please provide either a city name or both latitude and longitude coordinates."),
         { geocodeCalled := false, weatherFetchCalled := false })) ∧
    (input.city = some c → c ≠ "" → geocodeCity geo = none →
      getWeatherExecute input geo fetchThrows =
        (.ok (.errorResult ("Could not find coordinates for \"" ++ c ++
           "\". Please check the city name.")),
         { geocodeCalled := true, weatherFetchCalled := false })) := by
  constructor
  · intro hc hll
    unfold getWeatherExecute
    rw [hc]
    rcases hla : input.latitude with _ | lat <;>
      rcases hlo : input.longitude with _ | lon <;>
        simp_all
  · intro hc hne hgeo
    unfold getWeatherExecute
    rw [hc]
    simp [hne, hgeo]

/-- C10 witness: the two error paths at concrete inputs — an all-empty
input yields the "please provide" error with no network call; a city whose
geocoding finds no results yields the error naming the city. -/
theorem getWeather_error_handling_witness :
    getWeatherExecute ⟨none, none, none⟩ .respNotOk false =
      (.ok (.errorResult "Please provide either a city name or both latitude and longitude coordinates."),
       { geocodeCalled := false, weatherFetchCalled := false }) ∧
    getWeatherExecute ⟨none, none, some "Atlantis"⟩ .emptyResults false =
      (.ok (.errorResult ("Could not find coordinates for \"Atlantis\". Please check the city name.")),
       { geocodeCalled := true, weatherFetchCalled := false }) := by
  constructor
  · exact (getWeather_error_handling ⟨none, none, none⟩ .respNotOk false
      "x").1 rfl (by simp)
  · have h := (getWeather_error_handling ⟨none, none, some "Atlantis"⟩
      .emptyResults false "Atlantis").2 rfl (by decide) rfl
    simpa using h

end AgentWorkshop
